import Mathlib

/-!
# Verification of the bank-account chaincode
  (src/chaincode/hlf-course-chaincode-bank/bank-chaincode.go)

Shallow embedding of the chaincode's five operations (`addAccount`,
`delAccount`, `getBalance`, `transfer`, `getHistory`) and of its dispatcher
`bankManagement.Invoke`, over an explicit model of the chaincode stub
(key-value ledger, fault injection for the ledger port, the person-registry
cross-call, and the per-key history sequence).

Modelling conventions:
* `Balance` (Go `float64`) is modelled as an exact rational `ℚ`, following
  the specification's data model ("treat as exact decimal, never floating
  binary"); floating-point rounding is outside the model.
* `PersonID` (Go `uint64`) is modelled as `ℕ`; no arithmetic is ever
  performed on it, so wrap-around is irrelevant.
* `encoding/json` marshalling of a `BankAccount` is modelled by a concrete
  injective, round-tripping codec over `String` (`marshalAccount` /
  `unmarshalAccount`); strings outside the codec's range model byte slices
  on which `json.Unmarshal` fails.  No claim depends on the concrete wire
  format, only on the round-trip property the spec requires of the codec.
* `strconv.ParseFloat` is modelled by `parseFloat`, a plain decimal parser
  (optional sign, digits, optional fractional part).  No claim depends on
  the exotic inputs Go additionally accepts (exponents, `Inf`, hex floats).
* The Go source contains several statements that are not well-typed Go
  (`accountState.Balance` on a `[]byte`, `stub.PutState(k, json.Marshal(v))`
  passing two values, `response.Value >= 0` on a `[]byte`,
  `shim.Success(history)` on a `[]string`).  Where a claim only depends on
  the surrounding control flow, the evident intent is embedded (marshal then
  put; format then collect); where the ill-typed statement is itself the
  target of a claim (`getBalance`'s field access on raw bytes) the embedding
  marks it with the distinguished outcome `Resp.stuck` instead of inventing
  behaviour for it.
-/

namespace BankCC

/-- The sole domain entity, `BankAccount` (source lines 12-16).
`PersonID : uint64` is modelled as `ℕ`, `Balance : float64` as `ℚ`
(see the file header). -/
structure BankAccount where
  PersonID : Nat
  AccountNumber : String
  Balance : ℚ
deriving DecidableEq, Repr

/-! ## Account codec (model of `encoding/json` for `BankAccount`)

A concrete unary wire format chosen for a directly provable round trip:
`'A' :: unary PersonID :: sign/unary numerator :: unary denominator ::
AccountNumber`.  `unmarshalAccount` inverts `marshalAccount` exactly and
returns `none` on every other string. -/

/-- Encode a natural number in unary, terminated by a colon. -/
def encNat : Nat → List Char → List Char
  | 0, rest => ':' :: rest
  | n + 1, rest => 'u' :: encNat n rest

/-- Decode a colon-terminated unary natural number. -/
def decNat : List Char → Option (Nat × List Char)
  | ':' :: rest => some (0, rest)
  | 'u' :: rest => (decNat rest).map (fun p => (p.1 + 1, p.2))
  | _ => none

/-- Encode an integer: a sign character followed by its absolute value. -/
def encInt (i : Int) (rest : List Char) : List Char :=
  if i < 0 then '-' :: encNat i.natAbs rest else '+' :: encNat i.natAbs rest

/-- Decode an integer produced by `encInt`. -/
def decInt : List Char → Option (Int × List Char)
  | '-' :: rest => (decNat rest).map (fun p => (-(p.1 : Int), p.2))
  | '+' :: rest => (decNat rest).map (fun p => ((p.1 : Int), p.2))
  | _ => none

/-- Model of `json.Marshal` on a `BankAccount`. -/
def marshalAccount (a : BankAccount) : String :=
  String.mk ('A' :: encNat a.PersonID (encInt a.Balance.num
    (encNat a.Balance.den a.AccountNumber.toList)))

/-- Model of `json.Unmarshal` into a `BankAccount`: inverts
`marshalAccount`, failing (`none`) on every string outside its range. -/
def unmarshalAccount (s : String) : Option BankAccount :=
  match s.toList with
  | 'A' :: cs =>
    match decNat cs with
    | none => none
    | some (pid, cs) =>
      match decInt cs with
      | none => none
      | some (num, cs) =>
        match decNat cs with
        | none => none
        | some (den, cs) =>
          some ⟨pid, String.mk cs, (num : ℚ) / (den : ℚ)⟩
  | _ => none

/-! ## Amount parsing (model of `strconv.ParseFloat`) -/

/-- Parse a run of decimal digits, accumulating their value and count. -/
def parseDigits : List Char → Nat → Nat → Option (Nat × Nat)
  | [], acc, k => some (acc, k)
  | c :: cs, acc, k =>
    if c.isDigit then parseDigits cs (acc * 10 + (c.toNat - 48)) (k + 1)
    else none

/-- Model of `strconv.ParseFloat s 64` (source line 101): optional sign,
an integer part and an optional fractional part, at least one digit in
total; yields the exact rational value. -/
def parseFloat (s : String) : Option ℚ :=
  let signed : List Char → Option ℚ := fun cs =>
    match cs.splitOn '.' with
    | [intPart] =>
      match parseDigits intPart 0 0 with
      | some (v, k) => if k = 0 then none else some (v : ℚ)
      | none => none
    | [intPart, fracPart] =>
      match parseDigits intPart 0 0, parseDigits fracPart 0 0 with
      | some (vi, ki), some (vf, kf) =>
        if ki + kf = 0 then none
        else some ((vi : ℚ) + (vf : ℚ) / ((10 : ℚ) ^ kf))
      | _, _ => none
    | _ => none
  match s.toList with
  | '-' :: cs => (signed cs).map Neg.neg
  | '+' :: cs => signed cs
  | cs => signed cs

/-! ## Chaincode stub model

The ledger is an association list (most recent binding first); `PutState`
prepends, `GetState` is `List.lookup`, `DelState` filters.  Port faults are
injected per key; the text of an environment-supplied Go `error` value is
opaque to the chaincode and modelled by the constant `portErr`. -/

/-- Placeholder for the text of an environment-supplied Go `error` value
interpolated with `%s`; its content is opaque to the chaincode. -/
def portErr : String := "(port error)"

/-- Go's `fmt` rendering of a nil `error` interpolated with `%s`
(source line 37 formats the stale, nil `err` value). -/
def goNilErr : String := "%!s(<nil>)"

/-- Success payloads the handlers produce: `shim.Success(nil)` and the
history line list.  (`getBalance`'s payload statement is ill-typed in the
source; see `Resp.stuck`.) -/
inductive Payload
  | empty
  | lines (ls : List String)
deriving DecidableEq, Repr

/-- A `peer.Response` outcome, plus two distinguished outcomes for the
source's defective paths: `crash` models the nil-iterator dereference that
follows the discarded error on source line 153, and `stuck` marks the
ill-typed statement `shim.Success(accountState.Balance)` on line 90, which
has no Go semantics. -/
inductive Resp
  | success (p : Payload)
  | error (msg : String)
  | crash
  | stuck
deriving DecidableEq, Repr

/-- Response of the `personCC` registry cross-call (`peer.Response`):
status code and message. -/
structure PeerResponse where
  status : Nat
  message : String
deriving DecidableEq, Repr

/-- `shim.OK`. -/
def shimOK : Nat := 200

/-- `shim.ERROR`. -/
def shimERROR : Nat := 500

/-- Model of `shim.ChaincodeStubInterface` as the handlers use it: the
current ledger, per-key fault injection for `GetState` / `PutState` /
`DelState` / `GetHistoryForKey`, the registry cross-call as a function of
the person-id string, and the per-key history sequence (`none` entries are
positions where the iterator's `Next()` fails). -/
structure Stub where
  ledger : List (String × String)
  getFaults : List String
  putFaults : List String
  delFaults : List String
  registry : String → PeerResponse
  histFaults : List String
  hist : String → List (Option String)

/-- The observable outcome of one handler invocation: the peer response,
the ledger after the invocation, and the trace of ledger-port calls the
handler issued (`reads`: keys passed to `GetState`, in order; `writes`:
key/value pairs passed to `PutState`, in order, faulted attempts included —
a faulted `PutState` leaves the ledger unchanged). -/
structure ActionResult where
  resp : Resp
  ledger : List (String × String)
  reads : List String
  writes : List (String × String)
deriving DecidableEq, Repr

/-- `actions["addAccount"]`, source lines 22-54.  Note two source defects
kept faithfully: line 37 interpolates the stale nil `err` (not the
registry's `response.Message`), and line 50 constructs `shim.Error` on a
`PutState` fault but discards it, so the handler still returns
`shim.Success(nil)`. -/
def addAccount (stub : Stub) (params : List String) : ActionResult :=
  match params with
  | [p0] =>
    match unmarshalAccount p0 with
    | none =>
      ⟨.error ("failed to desirialize bank account information error " ++ portErr),
        stub.ledger, [], []⟩
    | some account =>
      let personID := toString account.PersonID
      let response := stub.registry personID
      if response.status = shimERROR then
        ⟨.error ("failed to create bank account for person with id " ++ personID
            ++ ", due to " ++ goNilErr), stub.ledger, [], []⟩
      else if account.AccountNumber ∈ stub.getFaults then
        ⟨.error ("failed to create bank account due to " ++ portErr),
          stub.ledger, [account.AccountNumber], []⟩
      else
        match List.lookup account.AccountNumber stub.ledger with
        | some _ =>
          ⟨.error ("bank account with number " ++ account.AccountNumber
              ++ " already exists"), stub.ledger, [account.AccountNumber], []⟩
        | none =>
          if account.AccountNumber ∈ stub.putFaults then
            ⟨.success .empty, stub.ledger, [account.AccountNumber],
              [(account.AccountNumber, p0)]⟩
          else
            ⟨.success .empty, (account.AccountNumber, p0) :: stub.ledger,
              [account.AccountNumber], [(account.AccountNumber, p0)]⟩
  | _ => ⟨.error "wrong number of arguments", stub.ledger, [], []⟩

/-- `actions["delAccount"]`, source lines 55-75. -/
def delAccount (stub : Stub) (params : List String) : ActionResult :=
  match params with
  | [accountId] =>
    if accountId ∈ stub.getFaults then
      ⟨.error ("failed to get account information due to " ++ portErr),
        stub.ledger, [accountId], []⟩
    else
      match List.lookup accountId stub.ledger with
      | none =>
        ⟨.error ("bank account with number " ++ accountId ++ " doesn't exists"),
          stub.ledger, [accountId], []⟩
      | some _ =>
        if accountId ∈ stub.delFaults then
          ⟨.error ("failed to delete account id " ++ accountId ++ ", due to "
              ++ portErr), stub.ledger, [accountId], []⟩
        else
          ⟨.success .empty, stub.ledger.filter (fun p => p.1 != accountId),
            [accountId], []⟩
  | _ => ⟨.error "wrong number of parameters", stub.ledger, [], []⟩

/-- `actions["getBalance"]`, source lines 76-91.  The final statement
`shim.Success(accountState.Balance)` reads a `.Balance` field off the raw
`[]byte` returned by `GetState` — no decode is performed and the statement
is not well-typed Go, so the embedding marks that outcome `Resp.stuck`
rather than inventing behaviour for it (claim C6). -/
def getBalance (stub : Stub) (params : List String) : ActionResult :=
  match params with
  | [accountId] =>
    if accountId ∈ stub.getFaults then
      ⟨.error ("failed to get account information due to " ++ portErr),
        stub.ledger, [accountId], []⟩
    else
      match List.lookup accountId stub.ledger with
      | none =>
        ⟨.error ("bank account with number " ++ accountId ++ " doesn't exists"),
          stub.ledger, [accountId], []⟩
      | some _ => ⟨.stuck, stub.ledger, [accountId], []⟩
  | _ => ⟨.error "wrong number of parameters", stub.ledger, [], []⟩

/-- `actions["transfer"]`, source lines 92-142.  Source defects kept
faithfully: line 128's receiver-decode error message interpolates
`senderState`; lines 134-139 construct `shim.Error` on a `PutState` fault
but discard it, so the handler always falls through to
`shim.Success(nil)`.  (`stub.PutState(k, json.Marshal(v))` discards the
marshal error / is ill-typed as written; the evident marshal-then-put
intent is embedded.) -/
def transfer (stub : Stub) (params : List String) : ActionResult :=
  match params with
  | [fromAcc, toAcc, amountText] =>
    match parseFloat amountText with
    | none => ⟨.error "failed to convert amount string to number",
        stub.ledger, [], []⟩
    | some amount =>
      if fromAcc ∈ stub.getFaults then
        ⟨.error ("failed to get sender account information due to " ++ portErr),
          stub.ledger, [fromAcc], []⟩
      else
        match List.lookup fromAcc stub.ledger with
        | none =>
          ⟨.error ("sender bank account with number " ++ fromAcc
              ++ " doesn't exists"), stub.ledger, [fromAcc], []⟩
        | some senderState =>
          match unmarshalAccount senderState with
          | none =>
            ⟨.error ("failed to read senderState " ++ senderState ++ ", due to "
                ++ portErr), stub.ledger, [fromAcc], []⟩
          | some senderAccount =>
            if senderAccount.Balance - amount < 0 then
              ⟨.error "sender doesn't have enough money", stub.ledger,
                [fromAcc], []⟩
            else if toAcc ∈ stub.getFaults then
              ⟨.error ("failed to get receiver account information due to "
                  ++ portErr), stub.ledger, [fromAcc, toAcc], []⟩
            else
              match List.lookup toAcc stub.ledger with
              | none =>
                ⟨.error ("receiver bank account with number " ++ toAcc
                    ++ " doesn't exists"), stub.ledger, [fromAcc, toAcc], []⟩
              | some receiverState =>
                match unmarshalAccount receiverState with
                | none =>
                  ⟨.error ("failed to read senderState " ++ senderState
                      ++ ", due to " ++ portErr), stub.ledger,
                    [fromAcc, toAcc], []⟩
                | some receiverAccount =>
                  let senderAccount2 :=
                    { senderAccount with Balance := senderAccount.Balance - amount }
                  let receiverAccount2 :=
                    { receiverAccount with Balance := receiverAccount.Balance + amount }
                  let l1 := if fromAcc ∈ stub.putFaults then stub.ledger
                    else (fromAcc, marshalAccount senderAccount2) :: stub.ledger
                  let l2 := if toAcc ∈ stub.putFaults then l1
                    else (toAcc, marshalAccount receiverAccount2) :: l1
                  ⟨.success .empty, l2, [fromAcc, toAcc],
                    [(fromAcc, marshalAccount senderAccount2),
                     (toAcc, marshalAccount receiverAccount2)]⟩
  | _ => ⟨.error "wrong number of parameters(use: from, to, amount)",
      stub.ledger, [], []⟩

/-- One history line, source lines 162-166.  The branch condition
`response.Value >= 0` compares a `[]byte` with `0` and is not well-typed
Go; no claim depends on this formatting, which is modelled as the
`"+%s"` branch. -/
def histLine (v : String) : String := "+" ++ v

/-- The iteration loop of `getHistory`, source lines 156-167: a `none`
entry is a position where the iterator's `Next()` fails. -/
def runHist : List (Option String) → List String → Resp
  | [], acc => .success (.lines acc.reverse)
  | none :: _, _ => .error "failed get Next() for historyIterator"
  | some v :: rest, acc => runHist rest (histLine v :: acc)

/-- `actions["getHistory"]`, source lines 143-170.  Source defect kept
faithfully: on a `GetHistoryForKey` fault, line 153 constructs `shim.Error`
but discards it, after which line 156 calls `HasNext()` on the nil
iterator — a crash, modelled as `Resp.crash`. -/
def getHistory (stub : Stub) (params : List String) : ActionResult :=
  match params with
  | [accountId] =>
    if accountId ∈ stub.histFaults then
      ⟨.crash, stub.ledger, [], []⟩
    else ⟨runHist (stub.hist accountId) [], stub.ledger, [], []⟩
  | _ => ⟨.error "wrong number of parameters", stub.ledger, [], []⟩

/-- `bankManagement.Invoke`, source lines 178-186: look the operation name
up in the `actions` table and delegate; unknown names fail. -/
def invoke (stub : Stub) (funcName : String) (params : List String) :
    ActionResult :=
  if funcName = "addAccount" then addAccount stub params
  else if funcName = "delAccount" then delAccount stub params
  else if funcName = "getBalance" then getBalance stub params
  else if funcName = "transfer" then transfer stub params
  else if funcName = "getHistory" then getHistory stub params
  else ⟨.error "unknown operation", stub.ledger, [], []⟩

/-! ## Concrete data for witnesses (the spec §8 scenario) -/

/-- Account `ACC-1` of person `42` with balance `100`. -/
def acct1 : BankAccount := ⟨42, "ACC-1", 100⟩

/-- Account `ACC-2` of person `43` with balance `0`. -/
def acct2 : BankAccount := ⟨43, "ACC-2", 0⟩

/-- A registry that confirms every person. -/
def regOK : String → PeerResponse := fun _ => ⟨shimOK, "ok"⟩

/-- Ledger holding the two demo accounts. -/
def baseLedger : List (String × String) :=
  [("ACC-1", marshalAccount acct1), ("ACC-2", marshalAccount acct2)]

/-- A fault-free stub over `baseLedger`. -/
def demoStub : Stub := ⟨baseLedger, [], [], [], regOK, [], fun _ => []⟩

/-- `demoStub` with `PutState` faulting on both demo keys. -/
def faultyPutStub : Stub :=
  ⟨baseLedger, [], ["ACC-1", "ACC-2"], [], regOK, [], fun _ => []⟩

/-- A fresh account `ACC-3` of person `44` with balance `5`. -/
def acct3 : BankAccount := ⟨44, "ACC-3", 5⟩

/-! ## Codec correctness -/

theorem decNat_encNat (n : Nat) (rest : List Char) :
    decNat (encNat n rest) = some (n, rest) := by
  induction n with
  | zero => rfl
  | succ n ih => simp [encNat, decNat, ih]

theorem decInt_encInt (i : Int) (rest : List Char) :
    decInt (encInt i rest) = some (i, rest) := by
  unfold encInt
  by_cases h : i < 0
  · have hx : (-(i.natAbs : Int)) = i := by omega
    simp [h, decInt, decNat_encNat, hx, abs_of_neg h]
  · have hx : ((i.natAbs : Int)) = i := by omega
    simp [h, decInt, decNat_encNat, hx]

/-- The codec round-trips exactly, as §6 of the spec requires. -/
theorem unmarshal_marshal (a : BankAccount) :
    unmarshalAccount (marshalAccount a) = some a := by
  unfold marshalAccount unmarshalAccount
  simp [decNat_encNat, decInt_encInt, Rat.num_div_den]

/-! ## Ledger lookup helpers -/

theorem lookup_cons_self {β : Type} (k : String) (v : β)
    (l : List (String × β)) : List.lookup k ((k, v) :: l) = some v := by
  simp [List.lookup]

theorem lookup_cons_ne {β : Type} {k k2 : String} (v : β)
    (l : List (String × β)) (h : k ≠ k2) :
    List.lookup k ((k2, v) :: l) = List.lookup k l := by
  have hb : (k == k2) = false := beq_eq_false_iff_ne.mpr h
  simp [List.lookup, hb]

/-! ## Dispatch: `Invoke` delegates verbatim -/

theorem invoke_addAccount (stub : Stub) (params : List String) :
    invoke stub "addAccount" params = addAccount stub params := rfl

theorem invoke_transfer (stub : Stub) (params : List String) :
    invoke stub "transfer" params = transfer stub params := rfl

theorem invoke_getHistory (stub : Stub) (params : List String) :
    invoke stub "getHistory" params = getHistory stub params := rfl

/-! ## The transfer engine's happy path, computed once -/

/-- With three arguments, a parseable amount, fault-free reads and writes
on both keys, decodable records under both keys and a sufficient sender
balance, `transfer` debits the sender, credits the receiver (both computed
from the pre-transfer records) and writes sender first, receiver second. -/
theorem transfer_happy (stub : Stub) (A B amt sA sB : String)
    (a b : BankAccount) (q : ℚ)
    (hgA : A ∉ stub.getFaults) (hgB : B ∉ stub.getFaults)
    (hpA : A ∉ stub.putFaults) (hpB : B ∉ stub.putFaults)
    (hA : List.lookup A stub.ledger = some sA)
    (ha : unmarshalAccount sA = some a)
    (hB : List.lookup B stub.ledger = some sB)
    (hb : unmarshalAccount sB = some b)
    (hamt : parseFloat amt = some q)
    (hbal : ¬(a.Balance - q < 0)) :
    transfer stub [A, B, amt] =
      ⟨.success .empty,
        (B, marshalAccount { b with Balance := b.Balance + q })
          :: (A, marshalAccount { a with Balance := a.Balance - q })
          :: stub.ledger,
        [A, B],
        [(A, marshalAccount { a with Balance := a.Balance - q }),
         (B, marshalAccount { b with Balance := b.Balance + q })]⟩ := by
  simp only [transfer, hamt, if_neg hgA, hA, ha, if_neg hbal, if_neg hgB,
    hB, hb, if_neg hpA, if_neg hpB]

/-- Like `transfer_happy`, but with `PutState` faulting on both keys:
the source (lines 134-139) discards both `shim.Error` values, so the
handler still answers `shim.Success(nil)` while the ledger is unchanged. -/
theorem transfer_put_faults (stub : Stub) (A B amt sA sB : String)
    (a b : BankAccount) (q : ℚ)
    (hgA : A ∉ stub.getFaults) (hgB : B ∉ stub.getFaults)
    (hpA : A ∈ stub.putFaults) (hpB : B ∈ stub.putFaults)
    (hA : List.lookup A stub.ledger = some sA)
    (ha : unmarshalAccount sA = some a)
    (hB : List.lookup B stub.ledger = some sB)
    (hb : unmarshalAccount sB = some b)
    (hamt : parseFloat amt = some q)
    (hbal : ¬(a.Balance - q < 0)) :
    transfer stub [A, B, amt] =
      ⟨.success .empty, stub.ledger, [A, B],
        [(A, marshalAccount { a with Balance := a.Balance - q }),
         (B, marshalAccount { b with Balance := b.Balance + q })]⟩ := by
  simp only [transfer, hamt, if_neg hgA, hA, ha, if_neg hbal, if_neg hgB,
    hB, hb, if_pos hpA, if_pos hpB]

/-- `addAccount` on a fresh key whose `PutState` faults: the source
(line 50) discards the `shim.Error` value, so the handler still answers
`shim.Success(nil)` while the ledger is unchanged. -/
theorem addAccount_put_fault (stub : Stub) (p0 : String) (acct : BankAccount)
    (hdec : unmarshalAccount p0 = some acct)
    (hreg : ¬((stub.registry (toString acct.PersonID)).status = shimERROR))
    (hg : acct.AccountNumber ∉ stub.getFaults)
    (habsent : List.lookup acct.AccountNumber stub.ledger = none)
    (hp : acct.AccountNumber ∈ stub.putFaults) :
    addAccount stub [p0] =
      ⟨.success .empty, stub.ledger, [acct.AccountNumber],
        [(acct.AccountNumber, p0)]⟩ := by
  simp only [addAccount, hdec, if_neg hreg, if_neg hg, habsent, if_pos hp]

/-! ## Evaluation lemmas for the concrete demo data -/

theorem parse30 : parseFloat "30" = some 30 := by decide

theorem lookup_acc1 :
    List.lookup "ACC-1" baseLedger = some (marshalAccount acct1) :=
  lookup_cons_self _ _ _

theorem lookup_acc2 :
    List.lookup "ACC-2" baseLedger = some (marshalAccount acct2) := by
  unfold baseLedger
  rw [lookup_cons_ne _ _ (by decide), lookup_cons_self]

/-! ## The claims -/

/-- C1: the claim says a `PutState` fault must surface as a failure of the
triggering operation (`StorageWriteError`), never be silently discarded.
The code violates this: on source lines 49-51 (`addAccount`) and 134-139
(`transfer`) the `shim.Error` value built from the `PutState` fault is
discarded (no `return`), and both handlers fall through to
`shim.Success(nil)`.  At the concrete failing inputs below, both operations
attempt writes that fault (the ledger stays `baseLedger`), yet both return
success. -/
theorem C1_write_fault_swallowed :
    (invoke faultyPutStub "transfer" ["ACC-1", "ACC-2", "30"]).resp
        = .success .empty ∧
    (invoke faultyPutStub "transfer" ["ACC-1", "ACC-2", "30"]).ledger
        = baseLedger ∧
    (invoke faultyPutStub "transfer" ["ACC-1", "ACC-2", "30"]).writes ≠ [] ∧
    (invoke { demoStub with putFaults := ["ACC-3"] } "addAccount"
        [marshalAccount acct3]).resp = .success .empty ∧
    (invoke { demoStub with putFaults := ["ACC-3"] } "addAccount"
        [marshalAccount acct3]).ledger = baseLedger := by
  have h1 := transfer_put_faults faultyPutStub "ACC-1" "ACC-2" "30"
    (marshalAccount acct1) (marshalAccount acct2) acct1 acct2 30
    (by simp [faultyPutStub]) (by simp [faultyPutStub])
    (by simp [faultyPutStub]) (by simp [faultyPutStub])
    lookup_acc1 (unmarshal_marshal acct1) lookup_acc2 (unmarshal_marshal acct2)
    parse30 (by norm_num [acct1])
  have h2 := addAccount_put_fault { demoStub with putFaults := ["ACC-3"] }
    (marshalAccount acct3) acct3 (unmarshal_marshal acct3)
    (by decide) (by decide) (by decide) (by decide)
  rw [invoke_transfer, invoke_addAccount, h1, h2]
  exact ⟨rfl, rfl, by simp, rfl, rfl⟩

/-- C2: for distinct existing, decodable accounts `A` and `B`, a parseable
amount with `A`'s balance ≥ amount, and a fault-free ledger port on both
keys, `transfer` succeeds; afterwards `A`'s stored record is debited by the
amount, `B`'s is credited by it, and the sum of the two balances is
conserved. -/
theorem C2_transfer_moves_funds (stub : Stub) (A B amt sA sB : String)
    (a b : BankAccount) (q : ℚ)
    (hAB : A ≠ B)
    (hgA : A ∉ stub.getFaults) (hgB : B ∉ stub.getFaults)
    (hpA : A ∉ stub.putFaults) (hpB : B ∉ stub.putFaults)
    (hA : List.lookup A stub.ledger = some sA)
    (ha : unmarshalAccount sA = some a)
    (hB : List.lookup B stub.ledger = some sB)
    (hb : unmarshalAccount sB = some b)
    (hamt : parseFloat amt = some q)
    (hbal : q ≤ a.Balance) :
    (invoke stub "transfer" [A, B, amt]).resp = .success .empty ∧
    List.lookup A (invoke stub "transfer" [A, B, amt]).ledger
      = some (marshalAccount { a with Balance := a.Balance - q }) ∧
    List.lookup B (invoke stub "transfer" [A, B, amt]).ledger
      = some (marshalAccount { b with Balance := b.Balance + q }) ∧
    (a.Balance - q) + (b.Balance + q) = a.Balance + b.Balance := by
  have hres := transfer_happy stub A B amt sA sB a b q hgA hgB hpA hpB
    hA ha hB hb hamt (not_lt.mpr (sub_nonneg.mpr hbal))
  rw [invoke_transfer, hres]
  refine ⟨rfl, ?_, ?_, by ring⟩
  · rw [lookup_cons_ne _ _ hAB, lookup_cons_self]
  · rw [lookup_cons_self]

/-- Witness for C2 at the spec §8 scenario: transferring `30` from `ACC-1`
(balance `100`) to `ACC-2` (balance `0`). -/
theorem C2_transfer_moves_funds_witness :
    (invoke demoStub "transfer" ["ACC-1", "ACC-2", "30"]).resp
        = .success .empty ∧
    List.lookup "ACC-1" (invoke demoStub "transfer" ["ACC-1", "ACC-2", "30"]).ledger
      = some (marshalAccount { acct1 with Balance := acct1.Balance - 30 }) ∧
    List.lookup "ACC-2" (invoke demoStub "transfer" ["ACC-1", "ACC-2", "30"]).ledger
      = some (marshalAccount { acct2 with Balance := acct2.Balance + 30 }) ∧
    (acct1.Balance - 30) + (acct2.Balance + 30) = acct1.Balance + acct2.Balance :=
  C2_transfer_moves_funds demoStub "ACC-1" "ACC-2" "30"
    (marshalAccount acct1) (marshalAccount acct2) acct1 acct2 30
    (by decide) (by simp [demoStub]) (by simp [demoStub])
    (by simp [demoStub]) (by simp [demoStub])
    lookup_acc1 (unmarshal_marshal acct1) lookup_acc2 (unmarshal_marshal acct2)
    parse30 (by norm_num [acct1])

/-- C3: when the sender exists (and decodes) but its balance is below the
parsed amount, `transfer` fails with the insufficient-funds error, the
ledger is unchanged and no `PutState` call is issued at all (the receiver
is not even read: the reads trace is exactly `[A]`). -/
theorem C3_insufficient_funds_no_write (stub : Stub) (A B amt sA : String)
    (a : BankAccount) (q : ℚ)
    (hgA : A ∉ stub.getFaults)
    (hA : List.lookup A stub.ledger = some sA)
    (ha : unmarshalAccount sA = some a)
    (hamt : parseFloat amt = some q)
    (hlt : a.Balance < q) :
    invoke stub "transfer" [A, B, amt] =
      ⟨.error "sender doesn't have enough money", stub.ledger, [A], []⟩ := by
  rw [invoke_transfer]
  simp only [transfer, hamt, if_neg hgA, hA, ha, if_pos (sub_neg.mpr hlt)]

/-- Witness for C3: `ACC-2` (balance `0`) cannot send `30`. -/
theorem C3_insufficient_funds_no_write_witness :
    invoke demoStub "transfer" ["ACC-2", "ACC-1", "30"] =
      ⟨.error "sender doesn't have enough money", demoStub.ledger,
        ["ACC-2"], []⟩ :=
  C3_insufficient_funds_no_write demoStub "ACC-2" "ACC-1" "30"
    (marshalAccount acct2) acct2 30
    (by simp [demoStub]) lookup_acc2 (unmarshal_marshal acct2)
    parse30 (by norm_num [acct2])

/-- C4: with exactly three arguments and an amount string that does not
parse, `transfer` fails with the parse error before any ledger-port call:
the reads and writes traces are both empty and the ledger is unchanged. -/
theorem C4_bad_amount_fails_first (stub : Stub) (A B amt : String)
    (hamt : parseFloat amt = none) :
    invoke stub "transfer" [A, B, amt] =
      ⟨.error "failed to convert amount string to number",
        stub.ledger, [], []⟩ := by
  rw [invoke_transfer]
  simp only [transfer, hamt]

/-- Witness for C4: the amount `"abc"` does not parse. -/
theorem C4_bad_amount_fails_first_witness :
    invoke demoStub "transfer" ["ACC-1", "ACC-2", "abc"] =
      ⟨.error "failed to convert amount string to number",
        demoStub.ledger, [], []⟩ :=
  C4_bad_amount_fails_first demoStub "ACC-1" "ACC-2" "abc" (by decide)

/-- C5: when the submitted account decodes, the registry confirms the
person and the read does not fault, `addAccount` on an account number that
already has a stored record fails with the already-exists error, issues no
write, and leaves the ledger — in particular the existing record —
unchanged: absence is checked before the create write. -/
theorem C5_addAccount_already_exists (stub : Stub) (p0 existing : String)
    (acct : BankAccount)
    (hdec : unmarshalAccount p0 = some acct)
    (hreg : ¬((stub.registry (toString acct.PersonID)).status = shimERROR))
    (hg : acct.AccountNumber ∉ stub.getFaults)
    (hex : List.lookup acct.AccountNumber stub.ledger = some existing) :
    invoke stub "addAccount" [p0] =
      ⟨.error ("bank account with number " ++ acct.AccountNumber
          ++ " already exists"), stub.ledger, [acct.AccountNumber], []⟩ := by
  rw [invoke_addAccount]
  simp only [addAccount, hdec, if_neg hreg, if_neg hg, hex]

/-- Witness for C5: re-adding `ACC-1` against `demoStub` fails and leaves
the ledger unchanged. -/
theorem C5_addAccount_already_exists_witness :
    invoke demoStub "addAccount" [marshalAccount acct1] =
      ⟨.error ("bank account with number " ++ "ACC-1" ++ " already exists"),
        demoStub.ledger, ["ACC-1"], []⟩ :=
  C5_addAccount_already_exists demoStub (marshalAccount acct1)
    (marshalAccount acct1) acct1
    (unmarshal_marshal acct1) (by decide) (by simp [demoStub]) lookup_acc1

/-- C6: the claim says `getBalance` decodes the stored bytes, fails with a
decode error on malformed bytes, and returns the numeric balance field.
The code does none of this: it performs no decode at all and its final
statement reads `.Balance` off the raw `[]byte` returned by `GetState`,
which is not well-typed Go (the embedding marks it `Resp.stuck`).  Below,
malformed stored bytes do not produce a decode error, and well-formed
stored bytes do not produce a balance payload: both runs reach the
ill-typed statement. -/
theorem C6_getBalance_no_decode :
    (invoke ⟨[("ACC-1", "garbage")], [], [], [], regOK, [], fun _ => []⟩
      "getBalance" ["ACC-1"]).resp = Resp.stuck ∧
    (invoke demoStub "getBalance" ["ACC-1"]).resp = Resp.stuck :=
  ⟨rfl, rfl⟩

/-- C7: the claim says the registry's own reason is surfaced in the
person-validation failure.  The code instead interpolates the stale `err`
variable (nil at that point, source line 37), so for every registry
message `m` the failure message is one and the same fixed string built
from the nil-error rendering — the registry's reason `m` never appears in
it. -/
theorem C7_registry_reason_not_surfaced (m : String) :
    (invoke ⟨[], [], [], [], fun _ => ⟨shimERROR, m⟩, [], fun _ => []⟩
        "addAccount" [marshalAccount acct1]).resp =
      .error ("failed to create bank account for person with id "
        ++ toString acct1.PersonID ++ ", due to " ++ goNilErr) := by
  rw [invoke_addAccount]
  simp [addAccount, unmarshal_marshal]

/-- C8: the claim says a `GetHistoryForKey` fault fails the operation with
`HistoryUnavailable` without iterating.  The code builds that error but
discards it (source line 153) and then calls `HasNext()` on the nil
iterator — a crash, not an error response (first conjunct).  The second
half of the claim does hold: a mid-iteration `Next()` fault is returned as
an error (second conjunct). -/
theorem C8_history_fault_crashes :
    (invoke { demoStub with histFaults := ["ACC-1"] }
        "getHistory" ["ACC-1"]).resp = Resp.crash ∧
    (invoke { demoStub with hist := fun _ => [some "v", none] }
        "getHistory" ["ACC-1"]).resp
      = .error "failed get Next() for historyIterator" :=
  ⟨rfl, rfl⟩

/-- C9: the module's behaviour is a deterministic function of the
operation name, the argument list and the stub (prior ledger, port fault
pattern, registry and history responses): re-executing the same invocation
against the same prior state yields the same response, the same final
ledger and the same read/write traces.  The embedding is a pure function
of exactly these inputs, which is this property; the source keeps no local
counters, draws no randomness and never consults a clock. -/
theorem C9_invoke_deterministic (stub1 stub2 : Stub) (funcName : String)
    (params : List String) (h : stub1 = stub2) :
    invoke stub1 funcName params = invoke stub2 funcName params := by
  rw [h]

/-- Witness for C9: re-running the spec §8 transfer. -/
theorem C9_invoke_deterministic_witness :
    invoke demoStub "transfer" ["ACC-1", "ACC-2", "30"]
      = invoke demoStub "transfer" ["ACC-1", "ACC-2", "30"] :=
  C9_invoke_deterministic demoStub demoStub "transfer"
    ["ACC-1", "ACC-2", "30"] rfl

/-- C10: a self-transfer `transfer(A, A, amt)` with sufficient balance
succeeds and leaves `A`'s stored balance at its prior balance **plus** the
amount: both updated records are computed from the pre-transfer state, and
the receiver-credit write to the same key overwrites the sender-debit
write, so a self-transfer creates funds rather than being a no-op. -/
theorem C10_self_transfer_creates_funds (stub : Stub) (A amt sA : String)
    (a : BankAccount) (q : ℚ)
    (hg : A ∉ stub.getFaults) (hp : A ∉ stub.putFaults)
    (hA : List.lookup A stub.ledger = some sA)
    (ha : unmarshalAccount sA = some a)
    (hamt : parseFloat amt = some q)
    (hbal : q ≤ a.Balance) :
    (invoke stub "transfer" [A, A, amt]).resp = .success .empty ∧
    List.lookup A (invoke stub "transfer" [A, A, amt]).ledger
      = some (marshalAccount { a with Balance := a.Balance + q }) := by
  have hres := transfer_happy stub A A amt sA sA a a q hg hg hp hp
    hA ha hA ha hamt (not_lt.mpr (sub_nonneg.mpr hbal))
  rw [invoke_transfer, hres]
  exact ⟨rfl, lookup_cons_self _ _ _⟩

/-- Witness for C10: `transfer("ACC-1", "ACC-1", "30")` against `demoStub`
leaves `ACC-1` at balance `130`. -/
theorem C10_self_transfer_creates_funds_witness :
    (invoke demoStub "transfer" ["ACC-1", "ACC-1", "30"]).resp
        = .success .empty ∧
    List.lookup "ACC-1" (invoke demoStub "transfer" ["ACC-1", "ACC-1", "30"]).ledger
      = some (marshalAccount { acct1 with Balance := acct1.Balance + 30 }) :=
  C10_self_transfer_creates_funds demoStub "ACC-1" "30"
    (marshalAccount acct1) acct1 30
    (by simp [demoStub]) (by simp [demoStub])
    lookup_acc1 (unmarshal_marshal acct1) parse30 (by norm_num [acct1])

end BankCC
